import Mathlib

/-!
Shallow embedding of the AgenticOne client chat core (src/index-backup.tsx).

The embedding models the React component state of `App` as an explicit
record (`AppState`) and each event handler as a pure state-transition
function.  The browser event loop is single-threaded, so every handler
invocation is a sequential state update; asynchronous external calls
(the generative-AI token counter and streaming generator) are modelled
by an environment record (`GenAIEnv`) of functions giving the outcome
of each external call for a given request.  Machine integers do not
overflow in the modelled ranges, so sizes and counters are `Nat`.
-/

namespace AgenticOne

/-- The four fixed agent identifiers (src/types: `AgentRole`). -/
inductive AgentRole
  | METHODS_SPECIALIST
  | CORROSION_ENGINEER
  | SUBSEA_ENGINEER
  | DISCIPLINE_HEAD
  deriving DecidableEq, Repr

/-- Message role (src/types: `'user' | 'assistant'`). -/
inductive Role
  | user
  | assistant
  deriving DecidableEq, Repr

/-- A chat message (src/types `Message`; the optional citation list is
never written by the modelled core and is omitted). -/
structure Message where
  role : Role
  content : String
  agentId : Option AgentRole
  deriving DecidableEq, Repr

/-- Agent descriptor (src/constants.tsx `AGENT_ROLES`).  Only the fields
the modelled core reads (`name`, used for query-history entries) are
kept; `description`, `systemPrompt`, `getWelcomeMessage` and `avatar`
are presentation data passed opaquely to external collaborators. -/
structure Agent where
  id : AgentRole
  name : String
  deriving DecidableEq, Repr

/-- src/constants.tsx `AGENT_ROLES` record. -/
def AGENT_ROLES : AgentRole → Agent
  | .METHODS_SPECIALIST => { id := .METHODS_SPECIALIST, name := "Methods Specialist" }
  | .CORROSION_ENGINEER => { id := .CORROSION_ENGINEER, name := "Corrosion Engineer" }
  | .SUBSEA_ENGINEER => { id := .SUBSEA_ENGINEER, name := "Subsea Engineer" }
  | .DISCIPLINE_HEAD => { id := .DISCIPLINE_HEAD, name := "Discipline Head" }

/-- RAG source toggles (src/types `RagSources`). -/
structure RagSources where
  standards : Bool
  internal : Bool
  sensors : Bool
  workorders : Bool
  deriving DecidableEq, Repr

/-- Upload lifecycle status (src/types `UploadedFileState.status`). -/
inductive FileStatus
  | uploading
  | processing
  | ready
  deriving DecidableEq, BEq, Repr

/-- Encoded file descriptor (src/types `UploadedFile`). -/
structure UploadedFile where
  name : String
  mimeType : String
  data : String
  deriving DecidableEq, Repr

/-- Uploaded-file lifecycle state (src/types `UploadedFileState`). -/
structure UploadedFileState where
  file : UploadedFile
  status : FileStatus
  progress : Nat
  deriving DecidableEq, Repr

/-- One query-history entry (src/index-backup.tsx line 290).  `Date.now()`
and `new Date()` are modelled by one clock value supplied by the
environment. -/
structure QueryHistoryEntry where
  id : String
  query : String
  agent : String
  timestamp : Nat
  deriving DecidableEq, Repr

/-- `Partial<Record<AgentRole, Message[]>>` (src/index-backup.tsx line 283):
an agent key may be absent (`none`), as after `setChatHistories({})`. -/
abbrev ChatHistories := AgentRole → Option (List Message)

/-- The React state of `App` relevant to the verified core
(src/index-backup.tsx lines 274-291). -/
structure AppState where
  selectedAgent : AgentRole
  ragSources : RagSources
  chatHistories : ChatHistories
  input : String
  isLoading : Bool
  isStreaming : Bool
  uploadedFiles : List UploadedFileState
  fileError : Option String
  tokenCount : Nat
  queryHistory : List QueryHistoryEntry

/-- Point update of the chat-history map, as performed by
`setChatHistories(prev => ({...prev, [agent]: v}))`. -/
def updateHist (h : ChatHistories) (a : AgentRole) (v : List Message) : ChatHistories :=
  fun b => if b = a then some v else h b

/-- JavaScript whitespace test for `String.prototype.trim` (the core
ASCII whitespace characters; the modelled inputs contain no exotic
Unicode spaces). -/
def isJsSpace (c : Char) : Bool := c = ' ' ∨ c = '\t' ∨ c = '\n' ∨ c = '\r'

/-- Model of JavaScript `input.trim()`. -/
def jsTrim (s : String) : String :=
  ⟨(((s.data.dropWhile isJsSpace).reverse).dropWhile isJsSpace).reverse⟩

/-- One part of an API content turn (the `@google/genai` parts union used
at src/index-backup.tsx lines 374-384). -/
inductive Part
  | text (t : String)
  | inlineData (mimeType : String) (data : String)
  deriving DecidableEq, Repr

/-- One `{role, parts}` turn of an API request. -/
structure APITurn where
  role : String
  parts : List Part
  deriving DecidableEq, Repr

/-- Role mapping for prior turns (src/index-backup.tsx line 375):
`msg.role === 'assistant' ? 'model' : 'user'`. -/
def roleToAPI : Role → String
  | .assistant => "model"
  | .user => "user"

/-- `Array.prototype.join(', ')` over the enabled source names. -/
def joinComma : List String → String
  | [] => ""
  | [x] => x
  | x :: y :: rest => x ++ ", " ++ joinComma (y :: rest)

/-- `Object.entries(ragSources)` in the declaration order of the object
literal at src/index-backup.tsx lines 277-282. -/
def ragEntries (r : RagSources) : List (String × Bool) :=
  [("standards", r.standards), ("internal", r.internal),
   ("sensors", r.sensors), ("workorders", r.workorders)]

/-- The enabled-source preamble fragment (src/index-backup.tsx lines 367-370). -/
def selectedSources (r : RagSources) : String :=
  joinComma ((ragEntries r).filter (fun e => e.2) |>.map (fun e => e.1))

/-- Request assembly (src/index-backup.tsx lines 366-385): prior turns of
the captured agent history, role-mapped, followed by one new user turn
whose parts are one inline-data part per `ready` file and one text part
holding the preamble plus the literal input. -/
def buildRequest (rag : RagSources) (files : List UploadedFileState)
    (history : List Message) (currentInput : String) : List APITurn :=
  let promptWithContext :=
    "Using data from: [" ++ selectedSources rag ++ "].\n\n" ++ currentInput
  let historyForAPI :=
    history.map (fun m => ({ role := roleToAPI m.role, parts := [Part.text m.content] } : APITurn))
  let readyFiles := (files.filter (fun f => f.status == FileStatus.ready)).map (fun f => f.file)
  let fileParts := readyFiles.map (fun f => Part.inlineData f.mimeType f.data)
  let userParts := fileParts ++ [Part.text promptWithContext]
  historyForAPI ++ [{ role := "user", parts := userParts }]

/-- The request `handleSendMessage` assembles for a given pre-submission
state: it passes the conversation captured BEFORE the user message is
appended (`currentAgentHistory`, line 357) and the literal input. -/
def requestOf (s : AppState) : List APITurn :=
  buildRequest s.ragSources s.uploadedFiles
    ((s.chatHistories s.selectedAgent).getD []) s.input

/-- Outcomes of the external generative-AI calls for one turn
(src/index-backup.tsx lines 388, 391, 402, 427).  Each function receives
the request contents actually passed to the external call; `none` or
`false` model the call throwing. -/
structure GenAIEnv where
  countTokens : List APITurn → Option Nat
  streamInit : List APITurn → Bool
  chunks : List APITurn → List String
  streamOk : List APITurn → Bool
  now : Nat

/-- Running state of the chunk loop (src/index-backup.tsx lines 400-422):
the `firstChunk` flag, the `fullResponse` accumulator, and the chat map. -/
structure ChunkLoopState where
  firstChunk : Bool
  fullResponse : String
  hist : ChatHistories

/-- One iteration of the chunk loop (src/index-backup.tsx lines 402-421).
A falsy (empty) chunk is skipped entirely.  A first non-empty chunk
appends a new assistant message; a later one extends the last message of
the captured agent history.  The `getLast? = none` branch corresponds to
the source dereferencing `lastMessage.content` on an empty array, which
cannot occur because `firstChunk = false` only after an append. -/
def chunkStep (a : AgentRole) (st : ChunkLoopState) (chunkText : String) : ChunkLoopState :=
  if chunkText = "" then st
  else
    let fullResponse := st.fullResponse ++ chunkText
    if st.firstChunk then
      let newAssistantMessage : Message := { role := .assistant, content := chunkText, agentId := some a }
      { firstChunk := false,
        fullResponse := fullResponse,
        hist := updateHist st.hist a (((st.hist a).getD []) ++ [newAssistantMessage]) }
    else
      let agentHistory := (st.hist a).getD []
      match agentHistory.getLast? with
      | none => { st with fullResponse := fullResponse }
      | some lastMessage =>
        let updatedMessage := { lastMessage with content := lastMessage.content ++ chunkText }
        { st with
          fullResponse := fullResponse,
          hist := updateHist st.hist a (agentHistory.dropLast ++ [updatedMessage]) }

/-- The whole chunk loop, applied to the chunks in arrival order. -/
def chunkLoop (a : AgentRole) (chunks : List String) (h : ChatHistories) : ChunkLoopState :=
  chunks.foldl (chunkStep a) { firstChunk := true, fullResponse := "", hist := h }

/-- The fixed-text fallback assistant message of the catch block
(src/index-backup.tsx lines 432-436). -/
def fallbackMessage (a : AgentRole) : Message :=
  { role := .assistant,
    content := "Sorry, I encountered an error. Please try again.",
    agentId := some a }

/-- The catch block state update (src/index-backup.tsx line 437): append
the fallback message to the captured agent conversation. -/
def appendError (h : ChatHistories) (a : AgentRole) : ChatHistories :=
  updateHist h a (((h a).getD []) ++ [fallbackMessage a])

/-- The synchronous part of a submission after the guard passes
(src/index-backup.tsx lines 344-363): clear the input, prepend a
query-history entry truncated to 50, append the user message, and set
the loading flag. -/
def afterSubmit (s : AppState) (now : Nat) : AppState :=
  let historyEntry : QueryHistoryEntry :=
    { id := toString now, query := jsTrim s.input,
      agent := (AGENT_ROLES s.selectedAgent).name, timestamp := now }
  let currentAgentHistory := (s.chatHistories s.selectedAgent).getD []
  let userMessage : Message := { role := .user, content := s.input, agentId := none }
  { s with
    input := "",
    queryHistory := historyEntry :: s.queryHistory.take 49,
    chatHistories := updateHist s.chatHistories s.selectedAgent (currentAgentHistory ++ [userMessage]),
    isLoading := true }

/-- The React state visible at a chunk-await suspension point of an
in-flight turn (src/index-backup.tsx lines 397-422): the guard has
passed, `n` input tokens were counted, the stream opened
(`isLoading := false`, `isStreaming := true`), and `chunksSoFar` chunks
have been applied.  The browser event loop can run another submit event
in exactly this state. -/
def midStreamState (s : AppState) (now n : Nat) (chunksSoFar : List String) : AppState :=
  let s1 := afterSubmit s now
  let s2 := { s1 with tokenCount := s1.tokenCount + n }
  let s3 := { s2 with isLoading := false, isStreaming := true }
  { s3 with chatHistories := (chunkLoop s.selectedAgent chunksSoFar s3.chatHistories).hist }

/-- The single-turn contents passed to the output token count
(src/index-backup.tsx line 427). -/
def outputContents (fullResponse : String) : List APITurn :=
  [{ role := "model", parts := [Part.text fullResponse] }]

/-- The try/catch body of a turn (src/index-backup.tsx lines 365-437),
starting from the post-guard state `afterSubmit s env.now`.  The stages
follow the source order: build the request, count input tokens, open
the stream, fold the chunks, count output tokens.  Any external failure
jumps to the catch block (`appendError`) on the state reached so far. -/
def runTurn (s : AppState) (env : GenAIEnv) : AppState :=
  let a := s.selectedAgent
  let s1 := afterSubmit s env.now
  let inputContents := requestOf s
  match env.countTokens inputContents with
  | none => { s1 with chatHistories := appendError s1.chatHistories a }
  | some n =>
    let s2 := { s1 with tokenCount := s1.tokenCount + n }
    if env.streamInit inputContents = false then
      { s2 with chatHistories := appendError s2.chatHistories a }
    else
      let s3 := { s2 with isLoading := false, isStreaming := true }
      let loop := chunkLoop a (env.chunks inputContents) s3.chatHistories
      let s4 := { s3 with chatHistories := loop.hist }
      if env.streamOk inputContents = false then
        { s4 with chatHistories := appendError s4.chatHistories a }
      else
        let s5 := { s4 with isStreaming := false }
        match env.countTokens (outputContents loop.fullResponse) with
        | none => { s5 with chatHistories := appendError s5.chatHistories a }
        | some m => { s5 with tokenCount := s5.tokenCount + m }

/-- The submit handler `handleSendMessage` (src/index-backup.tsx lines
340-442), as one turn of the sequential event-loop model.  The guard
(line 342) checks the blank input and the loading flag only; when it
passes, the try/catch body runs and the finally block (lines 438-441)
clears both flags on every path. -/
def handleSendMessage (s : AppState) (env : GenAIEnv) : AppState :=
  if jsTrim s.input = "" ∨ s.isLoading = true then s
  else { runTurn s env with isLoading := false, isStreaming := false }

/-- The sign-out handler (src/index-backup.tsx lines 331-338):
`auth.signOut()` is an external identity-provider call; the state effect
is `setChatHistories({})` and nothing else. -/
def handleSignOut (s : AppState) : AppState :=
  { s with chatHistories := fun _ => none }

/-! ## File ingestion pipeline (src/index-backup.tsx lines 444-512) -/

/-- src/index-backup.tsx lines 12-15. -/
def MAX_FILES : Nat := 5

def MAX_FILE_SIZE_MB : Nat := 10

def MAX_FILE_SIZE_BYTES : Nat := MAX_FILE_SIZE_MB * 1024 * 1024

def TOTAL_TOKEN_LIMIT : Nat := 10000

/-- A raw browser `File` handle as the picker supplies it, together with
the outcome the browser `FileReader` would produce for it:
`readResult = some dataURL` models a successful `readAsDataURL`,
`none` models the `onerror` path. -/
structure BrowserFile where
  name : String
  ftype : String
  size : Nat
  readResult : Option String
  deriving DecidableEq, Repr

/-- Index of the first comma of a character list (JavaScript
`String.prototype.indexOf(',')`; the caller handles absence). -/
def idxOfComma : List Char → Nat
  | [] => 0
  | c :: cs => if c = ',' then 0 else idxOfComma cs + 1

/-- `result.substring(result.indexOf(',') + 1)` (src/index-backup.tsx
line 468).  When no comma exists, JavaScript `indexOf` gives `-1` and
`substring(0)` returns the whole string. -/
def dataAfterComma (result : String) : String :=
  if result.data.contains ',' then ⟨result.data.drop (idxOfComma result.data + 1)⟩
  else result

/-- The per-file size-limit error text (src/index-backup.tsx line 461). -/
def sizeLimitError (name : String) : String :=
  "File \"" ++ name ++ "\" exceeds the " ++ toString MAX_FILE_SIZE_MB ++ "MB size limit."

/-- The per-file read-error text (src/index-backup.tsx line 480). -/
def readErrorMsg (name : String) : String :=
  "Error reading file \"" ++ name ++ "\"."

/-- `processFile` (src/index-backup.tsx lines 458-485): the first
component is the error message the promise records via `setFileError`
(if any), the second is the resolved `UploadedFileState` (or the `null`
the batch later filters out).  An oversized file is rejected before any
read; otherwise the data URL is read and the base64 payload is the text
after the first comma; `file.type || 'application/octet-stream'` fills
an empty MIME type. -/
def processFile (file : BrowserFile) : Option String × Option UploadedFileState :=
  if file.size > MAX_FILE_SIZE_BYTES then
    (some (sizeLimitError file.name), none)
  else
    match file.readResult with
    | some result =>
      (none,
       some { file := { name := file.name,
                        mimeType := if file.ftype = "" then "application/octet-stream" else file.ftype,
                        data := dataAfterComma result },
              status := .uploading,
              progress := 0 })
    | none => (some (readErrorMsg file.name), none)

/-- The file-picker change handler (src/index-backup.tsx lines 444-491):
reset the file error, reject the whole batch when the total would exceed
`MAX_FILES`, otherwise process every file, keep the non-null results in
batch order, and append them to the existing list.  `fileError` holds
the last error any rejected file recorded (`setFileError` last-write-
wins; size errors and read errors only feed the claims through their
presence).  The simulated progress timers the handler then starts
(lines 493-511) are separate later events outside this step. -/
def handleFileChange (s : AppState) (filesToUpload : List BrowserFile) : AppState :=
  if s.uploadedFiles.length + filesToUpload.length > MAX_FILES then
    { s with fileError := some ("You can upload a maximum of " ++ toString MAX_FILES ++ " files.") }
  else
    let results := filesToUpload.map processFile
    let newFiles := (results.map Prod.snd).filterMap id
    let errors := (results.map Prod.fst).filterMap id
    { s with
      fileError := errors.getLast?,
      uploadedFiles := s.uploadedFiles ++ newFiles }

/-! ## Concrete sample values used by witnesses and counterexamples -/

/-- A concrete session state: signed in, default agent and toggles,
nothing in flight. -/
def baseState : AppState :=
  { selectedAgent := .METHODS_SPECIALIST
    ragSources := { standards := true, internal := true, sensors := false, workorders := false }
    chatHistories := fun _ => none
    input := ""
    isLoading := false
    isStreaming := false
    uploadedFiles := []
    fileError := none
    tokenCount := 0
    queryHistory := [] }

/-- A small text file that reads successfully. -/
def smallFile (name : String) : BrowserFile :=
  { name := name, ftype := "text/plain", size := 100,
    readResult := some "data:text/plain;base64,QUJD" }

/-- A file one byte over the 10 MiB limit. -/
def oversizedFile (name : String) : BrowserFile :=
  { name := name, ftype := "text/plain", size := MAX_FILE_SIZE_BYTES + 1,
    readResult := some "data:text/plain;base64,QUJD" }

/-- A size-conforming file whose read fails (`FileReader.onerror`). -/
def unreadableFile (name : String) : BrowserFile :=
  { name := name, ftype := "text/plain", size := 100, readResult := none }

/-- The `UploadedFileState` a successful `smallFile` read resolves to. -/
def smallFileState (name : String) : UploadedFileState :=
  { file := { name := name, mimeType := "text/plain", data := "QUJD" },
    status := .uploading, progress := 0 }

/-- The streamed assistant message holding accumulated text `t`. -/
def streamedMsg (a : AgentRole) (t : String) : Message :=
  { role := .assistant, content := t, agentId := some a }

/-- The chunk-loop invariant relative to the starting map `h0` and the
starting conversation `L` of the captured agent `a`: the agent holds `L`
plus one streamed assistant message containing exactly the accumulated
text (absent while no non-empty chunk arrived), `firstChunk` tracks
emptiness of the accumulator, and no other agent is touched. -/
def LoopInv (a : AgentRole) (h0 : ChatHistories) (L : List Message) (st : ChunkLoopState) : Prop :=
  st.hist a = some (L ++ (if st.fullResponse = "" then [] else [streamedMsg a st.fullResponse]))
  ∧ (st.firstChunk = true ↔ st.fullResponse = "")
  ∧ ∀ b, b ≠ a → st.hist b = h0 b

/-- The submit guard condition (src/index-backup.tsx line 342). -/
def submitBlocked (s : AppState) : Prop :=
  jsTrim s.input = "" ∨ s.isLoading = true

instance (s : AppState) : Decidable (submitBlocked s) := by
  unfold submitBlocked; infer_instance

/-- The chunk-loop state a turn of `s` under `env` computes. -/
def loopOf (s : AppState) (env : GenAIEnv) : ChunkLoopState :=
  chunkLoop s.selectedAgent (env.chunks (requestOf s)) (afterSubmit s env.now).chatHistories

/-- The chunks a failing turn delivered before its exception: none when
the turn failed before the stream opened, all of them when the stream
itself or the output token count threw. -/
def deliveredChunks (s : AppState) (env : GenAIEnv) : List String :=
  if env.countTokens (requestOf s) = none then []
  else if env.streamInit (requestOf s) = false then []
  else env.chunks (requestOf s)

/-- A turn hits the catch block: one of the four external calls threw
(input token count, stream opening, stream iteration, output token
count). -/
def turnFails (s : AppState) (env : GenAIEnv) : Prop :=
  env.countTokens (requestOf s) = none
  ∨ env.streamInit (requestOf s) = false
  ∨ env.streamOk (requestOf s) = false
  ∨ env.countTokens
      (outputContents ((env.chunks (requestOf s)).foldl (fun x c => x ++ c) "")) = none

/-- An environment whose turn succeeds and streams three chunks that
assemble to "Hello, world". -/
def helloEnv : GenAIEnv :=
  { countTokens := fun _ => some 1
    streamInit := fun _ => true
    chunks := fun _ => ["Hel", "lo", ", world"]
    streamOk := fun _ => true
    now := 0 }

/-- An environment whose turn succeeds with an empty stream, at clock `t`. -/
def quietEnv (t : Nat) : GenAIEnv :=
  { countTokens := fun _ => some 0
    streamInit := fun _ => true
    chunks := fun _ => []
    streamOk := fun _ => true
    now := t }

/-- An environment whose stream delivers one chunk and then throws. -/
def failAfterOneChunkEnv : GenAIEnv :=
  { countTokens := fun _ => some 1
    streamInit := fun _ => true
    chunks := fun _ => ["Hel"]
    streamOk := fun _ => false
    now := 0 }

/-- A signed-in state about to submit "hi", with empty conversations
initialised for every agent. -/
def readyToSubmit : AppState :=
  { baseState with input := "hi", chatHistories := fun _ => some [] }

/-- The React state during the first turn of `readyToSubmitFirst`, at
the chunk-await suspension point after one chunk of an in-flight
stream, with the user having typed a second input meanwhile. -/
def readyToSubmitFirst : AppState :=
  { baseState with input := "first", chatHistories := fun _ => some [] }

def inFlightState : AppState :=
  midStreamState readyToSubmitFirst 5 1 ["Hel"]

/-- A state holding one uploaded file and initialised conversations. -/
def signedInWithUpload : AppState :=
  { baseState with chatHistories := fun _ => some [], uploadedFiles := [smallFileState "a"] }

/-- A state already holding three uploaded files. -/
def threeUploaded : AppState :=
  { baseState with
      uploadedFiles := [smallFileState "a", smallFileState "b", smallFileState "c"] }

/-- `n` successive successful submissions of inputs "q0", "q1", ...,
each typed after the previous turn resolved. -/
def submitMany (s : AppState) : Nat → AppState
  | 0 => s
  | n + 1 => handleSendMessage { submitMany s n with input := "q" ++ toString n } (quietEnv n)

/-! ## Supporting lemmas -/

/-- String concatenation is empty iff both halves are. -/
lemma str_append_eq_empty (a b : String) : a ++ b = "" ↔ a = "" ∧ b = "" := by
  simp [String.ext_iff, String.data_append]

/-- Appending the empty string is the identity. -/
lemma str_append_empty_right (a : String) : a ++ "" = a := by
  simp [String.ext_iff, String.data_append]

/-- Each loop iteration extends `fullResponse` by the chunk text. -/
lemma chunkStep_fullResponse (a : AgentRole) (st : ChunkLoopState) (c : String) :
    (chunkStep a st c).fullResponse = st.fullResponse ++ c := by
  unfold chunkStep
  by_cases hc : c = ""
  · simp [hc, str_append_empty_right]
  · simp only [if_neg hc]
    by_cases hf : st.firstChunk
    · simp [hf]
    · simp only [hf, if_neg]
      cases h : ((st.hist a).getD []).getLast? <;> simp [hf]

lemma chunkStep_inv (a : AgentRole) (h0 : ChatHistories) (L : List Message)
    (st : ChunkLoopState) (c : String) (h : LoopInv a h0 L st) :
    LoopInv a h0 L (chunkStep a st c) := by
  obtain ⟨h1, h2, h3⟩ := h
  by_cases hc : c = ""
  · unfold chunkStep
    simpa [hc] using ⟨h1, h2, h3⟩
  · by_cases hf : st.firstChunk = true
    · have hfr : st.fullResponse = "" := h2.mp hf
      unfold chunkStep
      simp only [if_neg hc, hf, if_pos]
      refine ⟨?_, ?_, ?_⟩
      · simp [updateHist, h1, hfr, str_append_eq_empty, hc, streamedMsg]
      · simp [hfr, str_append_eq_empty, hc]
      · intro b hb
        simp [updateHist, hb, h3 b hb]
    · have hfr : st.fullResponse ≠ "" := fun he => hf (h2.mpr he)
      have hfalse : st.firstChunk = false := by
        cases hcc : st.firstChunk
        · rfl
        · exact absurd hcc hf
      unfold chunkStep
      simp only [if_neg hc, hfalse, Bool.false_eq_true, if_neg, ite_false]
      rw [h1, if_neg hfr]
      simp only [Option.getD_some, List.getLast?_concat, List.dropLast_concat]
      refine ⟨?_, ?_, ?_⟩
      · have : ¬(st.fullResponse ++ c = "") := by
          rw [str_append_eq_empty]; exact fun hx => hfr hx.1
        simp [updateHist, this, streamedMsg]
      · constructor
        · intro hx; simp at hx
        · intro hx
          rw [str_append_eq_empty] at hx
          exact absurd hx.1 hfr
      · intro b hb
        simp [updateHist, hb, h3 b hb]

lemma foldl_chunkStep_inv (a : AgentRole) (h0 : ChatHistories) (L : List Message)
    (chunks : List String) :
    ∀ st : ChunkLoopState, LoopInv a h0 L st →
      LoopInv a h0 L (chunks.foldl (chunkStep a) st) := by
  induction chunks with
  | nil => intro st h; exact h
  | cons c rest ih =>
    intro st h
    exact ih _ (chunkStep_inv a h0 L st c h)

/-- The accumulated response equals the concatenation of all chunks in
arrival order (empty chunks contribute nothing). -/
lemma foldl_chunkStep_fullResponse (a : AgentRole) (chunks : List String) :
    ∀ st : ChunkLoopState,
      (chunks.foldl (chunkStep a) st).fullResponse
        = chunks.foldl (fun x c => x ++ c) st.fullResponse := by
  induction chunks with
  | nil => intro st; rfl
  | cons c rest ih =>
    intro st
    rw [List.foldl_cons, List.foldl_cons, ih, chunkStep_fullResponse]

lemma chunkLoop_spec (a : AgentRole) (h0 : ChatHistories) (L : List Message)
    (hL : h0 a = some L) (chunks : List String) :
    LoopInv a h0 L (chunkLoop a chunks h0)
      ∧ (chunkLoop a chunks h0).fullResponse = chunks.foldl (fun x c => x ++ c) "" := by
  constructor
  · refine foldl_chunkStep_inv a h0 L chunks _ ⟨?_, ?_, ?_⟩
    · simpa using hL
    · simp
    · intro b _; rfl
  · exact foldl_chunkStep_fullResponse a chunks _

lemma hsm_blocked (s : AppState) (env : GenAIEnv) (h : submitBlocked s) :
    handleSendMessage s env = s := by
  have h' : jsTrim s.input = "" ∨ s.isLoading = true := h
  unfold handleSendMessage
  rw [if_pos h']

lemma hsm_unblocked (s : AppState) (env : GenAIEnv) (h : ¬ submitBlocked s) :
    handleSendMessage s env = { runTurn s env with isLoading := false, isStreaming := false } := by
  have h' : ¬ (jsTrim s.input = "" ∨ s.isLoading = true) := h
  unfold handleSendMessage
  rw [if_neg h']

/-- No stage of the try/catch body touches the query history: it is the
one `afterSubmit` wrote. -/
lemma runTurn_queryHistory (s : AppState) (env : GenAIEnv) :
    (runTurn s env).queryHistory = (afterSubmit s env.now).queryHistory := by
  unfold runTurn
  dsimp only
  cases hct : env.countTokens (requestOf s) with
  | none => rfl
  | some n =>
    dsimp only
    by_cases hsi : env.streamInit (requestOf s) = false
    · rw [if_pos hsi]
    · rw [if_neg hsi]
      by_cases hso : env.streamOk (requestOf s) = false
      · rw [if_pos hso]
      · rw [if_neg hso]
        cases hout : env.countTokens (outputContents (chunkLoop s.selectedAgent
            (env.chunks (requestOf s)) (afterSubmit s env.now).chatHistories).fullResponse) with
        | none => rfl
        | some m => rfl

/-- Likewise the uploaded-file list is untouched by a turn. -/
lemma runTurn_uploadedFiles (s : AppState) (env : GenAIEnv) :
    (runTurn s env).uploadedFiles = s.uploadedFiles := by
  unfold runTurn
  dsimp only
  cases hct : env.countTokens (requestOf s) with
  | none => rfl
  | some n =>
    dsimp only
    by_cases hsi : env.streamInit (requestOf s) = false
    · rw [if_pos hsi]; rfl
    · rw [if_neg hsi]
      by_cases hso : env.streamOk (requestOf s) = false
      · rw [if_pos hso]; rfl
      · rw [if_neg hso]
        cases hout : env.countTokens (outputContents (chunkLoop s.selectedAgent
            (env.chunks (requestOf s)) (afterSubmit s env.now).chatHistories).fullResponse) with
        | none => rfl
        | some m => rfl

/-- The chat map of a fully successful turn is the one the chunk loop
produced. -/
lemma runTurn_success_chatHistories (s : AppState) (env : GenAIEnv) (n m : Nat)
    (hct : env.countTokens (requestOf s) = some n)
    (hsi : env.streamInit (requestOf s) = true)
    (hso : env.streamOk (requestOf s) = true)
    (hout : env.countTokens (outputContents (loopOf s env).fullResponse) = some m) :
    (runTurn s env).chatHistories = (loopOf s env).hist := by
  unfold runTurn loopOf
  dsimp only
  rw [hct]
  dsimp only
  rw [if_neg (by rw [hsi]; exact (by decide))]
  rw [if_neg (by rw [hso]; exact (by decide))]
  unfold loopOf at hout
  rw [hout]

/-- The chat map after a turn whose input token count threw. -/
lemma runTurn_fail_count_chatHistories (s : AppState) (env : GenAIEnv)
    (hct : env.countTokens (requestOf s) = none) :
    (runTurn s env).chatHistories
      = appendError (afterSubmit s env.now).chatHistories s.selectedAgent := by
  unfold runTurn
  dsimp only
  rw [hct]

/-- The chat map after a turn whose stream call threw before streaming. -/
lemma runTurn_fail_init_chatHistories (s : AppState) (env : GenAIEnv) (n : Nat)
    (hct : env.countTokens (requestOf s) = some n)
    (hsi : env.streamInit (requestOf s) = false) :
    (runTurn s env).chatHistories
      = appendError (afterSubmit s env.now).chatHistories s.selectedAgent := by
  unfold runTurn
  dsimp only
  rw [hct]
  dsimp only
  rw [if_pos hsi]

/-- The chat map after a turn whose stream threw mid-iteration: the
chunks delivered so far stand, plus the fallback. -/
lemma runTurn_fail_stream_chatHistories (s : AppState) (env : GenAIEnv) (n : Nat)
    (hct : env.countTokens (requestOf s) = some n)
    (hsi : env.streamInit (requestOf s) = true)
    (hso : env.streamOk (requestOf s) = false) :
    (runTurn s env).chatHistories
      = appendError (loopOf s env).hist s.selectedAgent := by
  unfold runTurn loopOf
  dsimp only
  rw [hct]
  dsimp only
  rw [if_neg (by rw [hsi]; exact (by decide))]
  rw [if_pos hso]

/-- The chat map after a turn whose output token count threw. -/
lemma runTurn_fail_out_chatHistories (s : AppState) (env : GenAIEnv) (n : Nat)
    (hct : env.countTokens (requestOf s) = some n)
    (hsi : env.streamInit (requestOf s) = true)
    (hso : env.streamOk (requestOf s) = true)
    (hout : env.countTokens (outputContents (loopOf s env).fullResponse) = none) :
    (runTurn s env).chatHistories
      = appendError (loopOf s env).hist s.selectedAgent := by
  unfold runTurn loopOf
  dsimp only
  rw [hct]
  dsimp only
  rw [if_neg (by rw [hsi]; exact (by decide))]
  rw [if_neg (by rw [hso]; exact (by decide))]
  unfold loopOf at hout
  rw [hout]

/-- `appendError` at the captured agent. -/
lemma appendError_self (h : ChatHistories) (a : AgentRole) :
    appendError h a a = some (((h a).getD []) ++ [fallbackMessage a]) := by
  simp [appendError, updateHist]

/-- The chat map right after the synchronous submit stage: the captured
agent gained the user message; nobody else changed. -/
lemma afterSubmit_chatHistories (s : AppState) (now : Nat) :
    (afterSubmit s now).chatHistories s.selectedAgent
        = some (((s.chatHistories s.selectedAgent).getD [])
            ++ [{ role := .user, content := s.input, agentId := none }])
      ∧ ∀ b, b ≠ s.selectedAgent → (afterSubmit s now).chatHistories b = s.chatHistories b := by
  constructor
  · simp [afterSubmit, updateHist]
  · intro b hb
    simp [afterSubmit, updateHist, hb]

lemma hsm_chatHistories (s : AppState) (env : GenAIEnv) (h : ¬ submitBlocked s) :
    (handleSendMessage s env).chatHistories = (runTurn s env).chatHistories := by
  rw [hsm_unblocked s env h]

/-- An unblocked submission prepends exactly one query-history entry and
truncates the remainder to 49. -/
lemma hsm_queryHistory (s : AppState) (env : GenAIEnv) (h : ¬ submitBlocked s) :
    (handleSendMessage s env).queryHistory
      = { id := toString env.now, query := jsTrim s.input,
          agent := (AGENT_ROLES s.selectedAgent).name,
          timestamp := env.now } :: s.queryHistory.take 49 := by
  rw [hsm_unblocked s env h]
  show (runTurn s env).queryHistory = _
  rw [runTurn_queryHistory]
  rfl

/-- `handleFileChange` when the batch-size check passes. -/
lemma hfc_ok (s : AppState) (batch : List BrowserFile)
    (h : s.uploadedFiles.length + batch.length ≤ MAX_FILES) :
    (handleFileChange s batch).uploadedFiles
        = s.uploadedFiles ++ ((batch.map processFile).map Prod.snd).filterMap id
      ∧ (handleFileChange s batch).fileError
        = (((batch.map processFile).map Prod.fst).filterMap id).getLast? := by
  unfold handleFileChange
  rw [if_neg (by omega)]
  exact ⟨rfl, rfl⟩

lemma processFile_oversized (f : BrowserFile) (h : f.size > MAX_FILE_SIZE_BYTES) :
    processFile f = (some (sizeLimitError f.name), none) := by
  unfold processFile
  rw [if_pos h]

lemma processFile_ok (f : BrowserFile) (r : String)
    (hs : f.size ≤ MAX_FILE_SIZE_BYTES) (hr : f.readResult = some r) :
    processFile f
      = (none,
         some { file := { name := f.name,
                          mimeType := if f.ftype = "" then "application/octet-stream" else f.ftype,
                          data := dataAfterComma r },
                status := .uploading, progress := 0 }) := by
  unfold processFile
  rw [if_neg (by omega), hr]

lemma processFile_readfail (f : BrowserFile)
    (hs : f.size ≤ MAX_FILE_SIZE_BYTES) (hr : f.readResult = none) :
    processFile f = (some (readErrorMsg f.name), none) := by
  unfold processFile
  rw [if_neg (by omega), hr]

/-! ## Claim theorems -/

/-- C2, counterexample to the claim as stated.  The claim says a submit
while a previous turn is still streaming is a no-op.  `inFlightState` is
the React state at the chunk-await suspension point of an in-flight
turn (its streaming flag is set); submitting new input there records a
query-history entry and appends a conversation message, so it is not a
no-op: the guard tests only the loading flag, which the handler cleared
when the stream opened. -/
theorem C2_claim_counterexample :
    inFlightState.isStreaming = true
    ∧ (handleSendMessage { inFlightState with input := "second" } (quietEnv 6)).queryHistory.length
        = inFlightState.queryHistory.length + 1
    ∧ (((handleSendMessage { inFlightState with input := "second" } (quietEnv 6)).chatHistories
          inFlightState.selectedAgent).getD []).length
        = ((inFlightState.chatHistories inFlightState.selectedAgent).getD []).length + 1 := by
  decide

/-- C2, amended: invoking submit with blank input or while the loading
flag is set is a no-op — the state is unchanged, so no message is
appended, no query-history entry is recorded and no request is issued.
The loading flag only spans from submission until the stream opens, so
this guard does not block a second submission while a response is still
streaming or its output tokens are being counted. -/
theorem C2_amended_guard_noop (s : AppState) (env : GenAIEnv) (h : submitBlocked s) :
    handleSendMessage s env = s :=
  hsm_blocked s env h

/-- Witness for C2 amended: submitting on a state with blank input
leaves the state unchanged. -/
theorem C2_amended_witness : handleSendMessage baseState helloEnv = baseState :=
  C2_amended_guard_noop baseState helloEnv (by decide)

/-- C3, counterexample to the claim as stated.  The claim says every
sign-out also empties the uploaded-file list; `handleSignOut` only
clears the conversation map (src/index-backup.tsx line 334) and leaves
the uploaded file in place. -/
theorem C3_claim_counterexample :
    (handleSignOut signedInWithUpload).uploadedFiles = [smallFileState "a"]
    ∧ (handleSignOut signedInWithUpload).uploadedFiles ≠ [] := by
  decide

/-- C3, amended: for every sign-out the per-agent conversation mapping
becomes empty, and the uploaded-file list is left unchanged (it is not
cleared). -/
theorem C3_amended_signout (s : AppState) :
    (∀ a, (handleSignOut s).chatHistories a = none)
    ∧ (handleSignOut s).uploadedFiles = s.uploadedFiles :=
  ⟨fun _ => rfl, rfl⟩

/-- C5: on every completion of a turn — success or any exception at any
step — the loading flag and the streaming flag are both cleared by the
final step, so a later submission is never blocked by a stale guard. -/
theorem C5_flags_cleared (s : AppState) (env : GenAIEnv) (h : ¬ submitBlocked s) :
    (handleSendMessage s env).isLoading = false
    ∧ (handleSendMessage s env).isStreaming = false := by
  rw [hsm_unblocked s env h]
  exact ⟨rfl, rfl⟩

/-- Witness for C5: a turn whose stream throws after one chunk still
ends with both flags cleared. -/
theorem C5_witness :
    (handleSendMessage readyToSubmit failAfterOneChunkEnv).isLoading = false
    ∧ (handleSendMessage readyToSubmit failAfterOneChunkEnv).isStreaming = false :=
  C5_flags_cleared readyToSubmit failAfterOneChunkEnv (by decide)

/-- C1, counterexample to the claim as stated.  The claim says that when
a partial assistant message already exists for the turn, no additional
message is appended on an exception.  On a stream that throws after
delivering the chunk "Hel", the catch block (src/index-backup.tsx lines
430-437) still appends the fallback message unconditionally: the final
conversation holds the user message, the preserved partial message AND
the fallback. -/
theorem C1_claim_counterexample :
    ((handleSendMessage readyToSubmit failAfterOneChunkEnv).chatHistories
        AgentRole.METHODS_SPECIALIST).getD []
      = [ { role := .user, content := "hi", agentId := none },
          { role := .assistant, content := "Hel", agentId := some .METHODS_SPECIALIST },
          { role := .assistant, content := "Sorry, I encountered an error. Please try again.",
            agentId := some .METHODS_SPECIALIST } ] := by
  decide

/-- C1, amended: for every turn in which an exception occurs during
request handling, token counting, or chunk streaming, exactly one
fallback assistant message ("Sorry, I encountered an error. Please try
again.") is appended to the selected agent's conversation — whether or
not a partial assistant message exists for the turn — and any partial
streamed content is preserved verbatim (not discarded or retried). -/
theorem C1_amended_fallback_always_appended (s : AppState) (env : GenAIEnv)
    (hguard : ¬ submitBlocked s) (hfail : turnFails s env) :
    (handleSendMessage s env).chatHistories s.selectedAgent
      = some ((((s.chatHistories s.selectedAgent).getD [])
            ++ [{ role := Role.user, content := s.input, agentId := none }])
          ++ (if (deliveredChunks s env).foldl (fun x c => x ++ c) "" = "" then []
              else [streamedMsg s.selectedAgent
                      ((deliveredChunks s env).foldl (fun x c => x ++ c) "")])
          ++ [fallbackMessage s.selectedAgent]) := by
  have hbase := (afterSubmit_chatHistories s env.now).1
  rw [hsm_chatHistories s env hguard]
  cases hct : env.countTokens (requestOf s) with
  | none =>
    have hd : deliveredChunks s env = [] := by
      unfold deliveredChunks
      rw [if_pos hct]
    rw [runTurn_fail_count_chatHistories s env hct, appendError_self, hbase, hd]
    simp
  | some n =>
    obtain ⟨⟨hinv1, hinv2, hinv3⟩, hfull⟩ :=
      chunkLoop_spec s.selectedAgent (afterSubmit s env.now).chatHistories _ hbase
        (env.chunks (requestOf s))
    by_cases hsi : env.streamInit (requestOf s) = false
    · have hd : deliveredChunks s env = [] := by
        unfold deliveredChunks
        rw [if_neg (by simp [hct]), if_pos hsi]
      rw [runTurn_fail_init_chatHistories s env n hct hsi, appendError_self, hbase, hd]
      simp
    · have hsi' : env.streamInit (requestOf s) = true := by
        revert hsi
        cases env.streamInit (requestOf s) <;> simp
      have hd : deliveredChunks s env = env.chunks (requestOf s) := by
        unfold deliveredChunks
        rw [if_neg (by simp [hct]), if_neg (by simp [hsi'])]
      rw [hfull] at hinv1
      by_cases hso : env.streamOk (requestOf s) = false
      · rw [runTurn_fail_stream_chatHistories s env n hct hsi' hso, appendError_self]
        rw [show (loopOf s env).hist
              = (chunkLoop s.selectedAgent (env.chunks (requestOf s))
                  (afterSubmit s env.now).chatHistories).hist from rfl]
        rw [hinv1, hd]
        simp
      · have hso' : env.streamOk (requestOf s) = true := by
          revert hso
          cases env.streamOk (requestOf s) <;> simp
        have hout : env.countTokens
            (outputContents ((env.chunks (requestOf s)).foldl (fun x c => x ++ c) "")) = none := by
          rcases hfail with h | h | h | h
          · rw [hct] at h; exact absurd h (by simp)
          · rw [hsi'] at h; exact absurd h (by simp)
          · rw [hso'] at h; exact absurd h (by simp)
          · exact h
        have hout' : env.countTokens (outputContents (loopOf s env).fullResponse) = none := by
          show env.countTokens
              (outputContents (chunkLoop s.selectedAgent (env.chunks (requestOf s))
                (afterSubmit s env.now).chatHistories).fullResponse) = none
          rw [hfull]
          exact hout
        rw [runTurn_fail_out_chatHistories s env n hct hsi' hso' hout', appendError_self]
        rw [show (loopOf s env).hist
              = (chunkLoop s.selectedAgent (env.chunks (requestOf s))
                  (afterSubmit s env.now).chatHistories).hist from rfl]
        rw [hinv1, hd]
        simp

/-- Witness for C1 amended: the stream fails after the chunk "Hel"; the
final conversation is user message, preserved partial, then exactly one
fallback. -/
theorem C1_amended_witness :
    (handleSendMessage readyToSubmit failAfterOneChunkEnv).chatHistories
        readyToSubmit.selectedAgent
      = some [ { role := Role.user, content := "hi", agentId := none },
               streamedMsg AgentRole.METHODS_SPECIALIST "Hel",
               fallbackMessage AgentRole.METHODS_SPECIALIST ] :=
  (C1_amended_fallback_always_appended readyToSubmit failAfterOneChunkEnv (by decide)
      (Or.inr (Or.inr (Or.inl rfl)))).trans (by decide)

/-- C4: for every turn and every chunk sequence applied in arrival
order, the first non-empty chunk creates the assistant message, each
later non-empty chunk extends it, and empty chunks are skipped without
terminating the stream: on success the captured agent's conversation
ends with the user message followed by one assistant message whose
content is the in-order concatenation of all chunks (no assistant
message when every chunk is empty), and no other agent's conversation
changes. -/
theorem C4_chunk_order (s : AppState) (env : GenAIEnv) (n m : Nat)
    (hguard : ¬ submitBlocked s)
    (hct : env.countTokens (requestOf s) = some n)
    (hsi : env.streamInit (requestOf s) = true)
    (hso : env.streamOk (requestOf s) = true)
    (hout : env.countTokens
        (outputContents ((env.chunks (requestOf s)).foldl (fun x c => x ++ c) "")) = some m) :
    ((handleSendMessage s env).chatHistories s.selectedAgent
        = some ((((s.chatHistories s.selectedAgent).getD [])
              ++ [{ role := Role.user, content := s.input, agentId := none }])
            ++ (if (env.chunks (requestOf s)).foldl (fun x c => x ++ c) "" = "" then []
                else [streamedMsg s.selectedAgent
                        ((env.chunks (requestOf s)).foldl (fun x c => x ++ c) "")])))
    ∧ ∀ b, b ≠ s.selectedAgent →
        (handleSendMessage s env).chatHistories b = s.chatHistories b := by
  have hbase := (afterSubmit_chatHistories s env.now).1
  have hothers := (afterSubmit_chatHistories s env.now).2
  obtain ⟨⟨hinv1, hinv2, hinv3⟩, hfull⟩ :=
    chunkLoop_spec s.selectedAgent (afterSubmit s env.now).chatHistories _ hbase
      (env.chunks (requestOf s))
  have hout' : env.countTokens (outputContents (loopOf s env).fullResponse) = some m := by
    show env.countTokens
        (outputContents (chunkLoop s.selectedAgent (env.chunks (requestOf s))
          (afterSubmit s env.now).chatHistories).fullResponse) = some m
    rw [hfull]
    exact hout
  have hist := runTurn_success_chatHistories s env n m hct hsi hso hout'
  rw [hfull] at hinv1
  constructor
  · rw [hsm_chatHistories s env hguard, hist]
    rw [show (loopOf s env).hist
          = (chunkLoop s.selectedAgent (env.chunks (requestOf s))
              (afterSubmit s env.now).chatHistories).hist from rfl]
    exact hinv1
  · intro b hb
    rw [hsm_chatHistories s env hguard, hist]
    rw [show (loopOf s env).hist
          = (chunkLoop s.selectedAgent (env.chunks (requestOf s))
              (afterSubmit s env.now).chatHistories).hist from rfl]
    rw [hinv3 b hb]
    exact hothers b hb

/-- Witness for C4: the chunk sequence ["Hel", "lo", ", world"] yields a
final assistant message whose content is "Hello, world". -/
theorem C4_witness :
    (handleSendMessage readyToSubmit helloEnv).chatHistories readyToSubmit.selectedAgent
      = some [ { role := Role.user, content := "hi", agentId := none },
               streamedMsg AgentRole.METHODS_SPECIALIST "Hello, world" ] :=
  ((C4_chunk_order readyToSubmit helloEnv 1 1 (by decide) rfl rfl rfl rfl).1).trans (by decide)

/-- C6: when the existing upload count plus the incoming batch size
exceeds MAX_FILES (5), the whole batch is rejected with the single
batch-limit error message and the existing list is unchanged; otherwise
the batch-size check passes and exactly the per-file processing results
are appended (no file is rejected on the batch-size ground). -/
theorem C6_batch_limit (s : AppState) (batch : List BrowserFile) :
    (s.uploadedFiles.length + batch.length > MAX_FILES →
        (handleFileChange s batch).uploadedFiles = s.uploadedFiles
        ∧ (handleFileChange s batch).fileError
            = some "You can upload a maximum of 5 files.")
    ∧ (s.uploadedFiles.length + batch.length ≤ MAX_FILES →
        (handleFileChange s batch).uploadedFiles
          = s.uploadedFiles ++ ((batch.map processFile).map Prod.snd).filterMap id) := by
  constructor
  · intro h
    unfold handleFileChange
    rw [if_pos h]
    refine ⟨rfl, ?_⟩
    show some ("You can upload a maximum of " ++ toString MAX_FILES ++ " files.")
        = some "You can upload a maximum of 5 files."
    decide
  · intro h
    exact (hfc_ok s batch h).1

/-- Witness for C6: with three files present, a three-file batch is
rejected whole while a two-file batch is appended. -/
theorem C6_witness :
    ((handleFileChange threeUploaded [smallFile "d", smallFile "e", smallFile "f"]).uploadedFiles
        = threeUploaded.uploadedFiles
      ∧ (handleFileChange threeUploaded [smallFile "d", smallFile "e", smallFile "f"]).fileError
          = some "You can upload a maximum of 5 files.")
    ∧ (handleFileChange threeUploaded [smallFile "d", smallFile "e"]).uploadedFiles
        = threeUploaded.uploadedFiles
          ++ (([smallFile "d", smallFile "e"].map processFile).map Prod.snd).filterMap id :=
  ⟨(C6_batch_limit threeUploaded [smallFile "d", smallFile "e", smallFile "f"]).1 (by decide),
   (C6_batch_limit threeUploaded [smallFile "d", smallFile "e"]).2 (by decide)⟩

/-- C7: within a batch that passes the batch-size check, a file over
MAX_FILE_SIZE_BYTES (10 MiB) is individually skipped — an error message
is recorded — while every other file of the batch is still accepted,
and every accepted file is read fully with its base64 payload (the data
URL after the first comma) and declared MIME type. -/
theorem C7_oversize_skip (s : AppState) (pre post : List BrowserFile) (big : BrowserFile)
    (hlen : s.uploadedFiles.length + (pre ++ big :: post).length ≤ MAX_FILES)
    (hbig : big.size > MAX_FILE_SIZE_BYTES) :
    ((handleFileChange s (pre ++ big :: post)).uploadedFiles
        = s.uploadedFiles
          ++ ((pre.map processFile).map Prod.snd).filterMap id
          ++ ((post.map processFile).map Prod.snd).filterMap id)
    ∧ (handleFileChange s (pre ++ big :: post)).fileError ≠ none
    ∧ ∀ f r, f.size ≤ MAX_FILE_SIZE_BYTES → f.readResult = some r →
        (processFile f).2
          = some { file := { name := f.name,
                             mimeType := if f.ftype = "" then "application/octet-stream" else f.ftype,
                             data := dataAfterComma r },
                   status := .uploading, progress := 0 } := by
  obtain ⟨hu, he⟩ := hfc_ok s (pre ++ big :: post) hlen
  refine ⟨?_, ?_, ?_⟩
  · rw [hu]
    simp [processFile_oversized big hbig, List.append_assoc]
  · rw [he]
    simp [processFile_oversized big hbig, List.getLast?_eq_none_iff]
  · intro f r hf hr
    rw [processFile_ok f r hf hr]

/-- Witness for C7: in a three-file batch whose middle file exceeds
10 MiB, the two conforming files are accepted and an error is shown. -/
theorem C7_witness :
    ((handleFileChange baseState [smallFile "a", oversizedFile "b", smallFile "c"]).uploadedFiles
        = [smallFileState "a", smallFileState "c"])
    ∧ (handleFileChange baseState [smallFile "a", oversizedFile "b", smallFile "c"]).fileError
        ≠ none := by
  have h := C7_oversize_skip baseState [smallFile "a"] [smallFile "c"] (oversizedFile "b")
    (by decide) (by decide)
  exact ⟨h.1.trans (by decide), h.2.1⟩

/-- C10: when reading a size-conforming file fails, only that file is
dropped from the batch — its per-file read-error message is recorded,
every other file of the batch is still added, and the previously
uploaded files stay as the unchanged prefix. -/
theorem C10_read_failure_skip (s : AppState) (pre post : List BrowserFile) (bad : BrowserFile)
    (hlen : s.uploadedFiles.length + (pre ++ bad :: post).length ≤ MAX_FILES)
    (hsize : bad.size ≤ MAX_FILE_SIZE_BYTES)
    (hread : bad.readResult = none) :
    ((handleFileChange s (pre ++ bad :: post)).uploadedFiles
        = s.uploadedFiles
          ++ ((pre.map processFile).map Prod.snd).filterMap id
          ++ ((post.map processFile).map Prod.snd).filterMap id)
    ∧ (handleFileChange s (pre ++ bad :: post)).fileError ≠ none
    ∧ processFile bad = (some (readErrorMsg bad.name), none) := by
  obtain ⟨hu, he⟩ := hfc_ok s (pre ++ bad :: post) hlen
  refine ⟨?_, ?_, processFile_readfail bad hsize hread⟩
  · rw [hu]
    simp [processFile_readfail bad hsize hread, List.append_assoc]
  · rw [he]
    simp [processFile_readfail bad hsize hread, List.getLast?_eq_none_iff]

/-- Witness for C10: in a three-file batch whose middle file fails to
read, the other two files are accepted and the read error is recorded. -/
theorem C10_witness :
    ((handleFileChange baseState [smallFile "a", unreadableFile "b", smallFile "c"]).uploadedFiles
        = [smallFileState "a", smallFileState "c"])
    ∧ (handleFileChange baseState [smallFile "a", unreadableFile "b", smallFile "c"]).fileError
        ≠ none
    ∧ processFile (unreadableFile "b") = (some (readErrorMsg "b"), none) := by
  have h := C10_read_failure_skip baseState [smallFile "a"] [smallFile "c"] (unreadableFile "b")
    (by decide) (by decide) rfl
  exact ⟨h.1.trans (by decide), h.2.1, h.2.2⟩

/-- C8: the outgoing request of a submitted turn is exactly the prior
conversation turns of the captured agent with roles mapped (assistant
to "model", user to "user"), followed by one new user turn whose parts
are one inline-data part (base64 payload plus declared MIME type) per
uploaded file in `ready` status — files in `uploading` or `processing`
status are excluded — followed by one text part holding the enabled
RagSources preamble prepended to the literal input; the new user turn
occurs exactly once, at the end. -/
theorem C8_request_assembly (s : AppState) :
    (requestOf s
      = ((s.chatHistories s.selectedAgent).getD []).map
          (fun msg => ({ role := roleToAPI msg.role, parts := [Part.text msg.content] } : APITurn))
        ++ [{ role := "user",
              parts := ((s.uploadedFiles.filter (fun f => f.status == FileStatus.ready)).map
                          (fun f => Part.inlineData f.file.mimeType f.file.data))
                        ++ [Part.text ("Using data from: ["
                              ++ selectedSources s.ragSources ++ "].\n\n" ++ s.input)] }])
    ∧ roleToAPI Role.assistant = "model"
    ∧ roleToAPI Role.user = "user"
    ∧ s.uploadedFiles.filter (fun f => f.status == FileStatus.ready)
        = s.uploadedFiles.filter
            (fun f => !(f.status == FileStatus.uploading || f.status == FileStatus.processing)) := by
  refine ⟨?_, rfl, rfl, ?_⟩
  · unfold requestOf buildRequest
    simp [List.map_map, Function.comp]
  · apply List.filter_congr
    intro f _
    cases h : f.status <;> rfl

set_option maxRecDepth 8000

/-- C9: each accepted submission prepends one query-history entry and
truncates the rest to the 49 newest, so the log never exceeds 50
entries and is ordered most recent first; sixty successive submissions
from an empty log leave exactly 50 entries, newest ("q59") first. -/
theorem C9_query_history_bound :
    (∀ (s : AppState) (env : GenAIEnv), s.queryHistory.length ≤ 50 →
        (handleSendMessage s env).queryHistory.length ≤ 50)
    ∧ (∀ (s : AppState) (env : GenAIEnv), ¬ submitBlocked s →
        (handleSendMessage s env).queryHistory
          = { id := toString env.now, query := jsTrim s.input,
              agent := (AGENT_ROLES s.selectedAgent).name,
              timestamp := env.now } :: s.queryHistory.take 49)
    ∧ (submitMany baseState 60).queryHistory.length = 50
    ∧ (submitMany baseState 60).queryHistory.map (fun e => e.query)
        = (List.range 50).map (fun i => "q" ++ toString (59 - i)) := by
  refine ⟨?_, ?_, ?_, ?_⟩
  · intro s env h
    by_cases hb : submitBlocked s
    · rw [hsm_blocked s env hb]
      exact h
    · rw [hsm_queryHistory s env hb]
      simp only [List.length_cons, List.length_take]
      omega
  · intro s env hb
    exact hsm_queryHistory s env hb
  · decide
  · decide

/-- Witness for C9: one accepted submission from an empty log yields
exactly one entry, and the bound holds. -/
theorem C9_witness :
    ((handleSendMessage readyToSubmit helloEnv).queryHistory
        = [{ id := "0", query := "hi", agent := "Methods Specialist", timestamp := 0 }])
    ∧ (handleSendMessage readyToSubmit helloEnv).queryHistory.length ≤ 50 :=
  ⟨(C9_query_history_bound.2.1 readyToSubmit helloEnv (by decide)).trans (by decide),
   C9_query_history_bound.1 readyToSubmit helloEnv (by decide)⟩

end AgenticOne
